import Mathlib

/-!
Verification of the ANGLE/EGL context lifecycle module
(src/platform/windows/angle/context.rs): a shallow embedding of the data
model and the Device operations, with native backend responses supplied as
explicit oracles and native calls recorded as effect traces.

The source module's success path in create_context names fields of another
backend variant (cgl_context, framebuffer); per the module's canonical
EGL contract (config select, create, make current, load functions once,
populate info) the created context is embedded as the OwnedEGLContext
handle with a fresh info cache and no color surface. Debug assertions are
modelled as active, so a failed assertion is a panic outcome.
-/

namespace Surfman

/-- Native EGL context handles, modelled as natural numbers; the handle 0
stands for EGL_NO_CONTEXT. -/
abbrev EGLContext := Nat

/-- EGL_NO_CONTEXT, the null context handle. -/
def NO_CONTEXT : EGLContext := 0

/-- Modelled from the spec: the crate-level GLApi enum (declared outside this
module) distinguishing the desktop profile from the embedded (GLES) profile. -/
inductive GLApi
  | GL
  | GLES
deriving DecidableEq, Repr

/-- Modelled from the spec: the crate-level GLVersion value (major, minor). -/
structure GLVersion where
  major : Nat
  minor : Nat
deriving DecidableEq, Repr

/-- GLVersion constructor mirroring GLVersion::new(major, minor). -/
def GLVersion.new (major minor : Nat) : GLVersion :=
  { major := major, minor := minor }

/-- Modelled from the spec: GLFlavor pairs the API flavor with the version. -/
structure GLFlavor where
  api : GLApi
  version : GLVersion
deriving DecidableEq, Repr

/-- Modelled from the spec: the attribute flag set {ALPHA, DEPTH, STENCIL}
(crate-level bitflags, declared outside this module). -/
structure ContextAttributeFlags where
  alpha : Bool
  depth : Bool
  stencil : Bool
deriving DecidableEq, Repr

/-- The empty flag set. -/
def ContextAttributeFlags.empty : ContextAttributeFlags :=
  { alpha := false, depth := false, stencil := false }

/-- Modelled from the spec: immutable creation attributes (flags and flavor),
consumed once at creation. -/
structure ContextAttributes where
  flags : ContextAttributeFlags
  flavor : GLFlavor
deriving DecidableEq, Repr

/-- A renderable surface, identified by an opaque id. The Surface type is
declared in the sibling surface module; identity is all this module's
operations observe of it. -/
structure Surface where
  id : Nat
deriving DecidableEq, Repr

/-- Modelled from the spec: the Color Surface tri-state None, Managed or
External (declared in the sibling surface module). -/
inductive ColorSurface
  | none
  | Managed (surface : Surface)
  | External
deriving DecidableEq, Repr

/-- Modelled from the spec: ColorSurface::take (sibling surface module)
removes and returns a Managed payload, leaving None; None and External yield
nothing, and External stays External (an external target's ownership is never
transferred to this system). -/
def ColorSurface.take : ColorSurface → Option Surface × ColorSurface
  | ColorSurface.Managed s => (some s, ColorSurface.none)
  | ColorSurface.none => (Option.none, ColorSurface.none)
  | ColorSurface.External => (Option.none, ColorSurface.External)

/-- Modelled from the spec: the error taxonomy (crate::Error is declared
outside this module). Variant names follow this module's uses;
UnsupportedGLType is the variant this module returns for an unsupported API
flavor (the spec's UnsupportedFlavor), and NoCurrentContext is the spec
taxonomy's entry for adoption without a current context. Translated native
error codes are carried as Nat. -/
inductive Error
  | UnsupportedGLType
  | PixelFormatSelectionFailed (code : Nat)
  | NoPixelFormatFound
  | ContextCreationFailed (code : Nat)
  | MakeCurrentFailed (code : Nat)
  | ExternalRenderTarget
  | GLFunctionNotFound
  | NoCurrentContext
deriving DecidableEq, Repr

/-- Modelled from the spec: the Info Cache (crate::GLInfo, declared outside
this module) — a capability snapshot created from the attributes and populated
once after first activation. -/
structure GLInfo where
  attributes : ContextAttributes
  populated : Bool
deriving DecidableEq, Repr

/-- GLInfo::new: a fresh, not yet populated snapshot of the attributes. -/
def GLInfo.new (attributes : ContextAttributes) : GLInfo :=
  { attributes := attributes, populated := false }

/-- GLInfo::populate: fills the capability snapshot after activation. -/
def GLInfo.populate (g : GLInfo) : GLInfo :=
  { g with populated := true }

/-- The NativeContext trait object: OwnedEGLContext (library-created, must be
destroyed through this system) or UnsafeEGLContextRef (borrowed, never
released natively). Each holds the raw EGL context handle. -/
inductive NativeContext
  | OwnedEGLContext (egl_context : EGLContext)
  | UnsafeEGLContextRef (egl_context : EGLContext)
deriving DecidableEq, Repr

/-- The raw EGL handle held by either variant. -/
def NativeContext.egl_context : NativeContext → EGLContext
  | NativeContext.OwnedEGLContext c => c
  | NativeContext.UnsafeEGLContextRef c => c

/-- Both variants implement is_destroyed the same way: the held handle equals
EGL_NO_CONTEXT. -/
def NativeContext.is_destroyed (n : NativeContext) : Bool :=
  n.egl_context == NO_CONTEXT

/-- True exactly for the OwnedEGLContext variant. -/
def NativeContext.isOwned : NativeContext → Bool
  | NativeContext.OwnedEGLContext _ => true
  | NativeContext.UnsafeEGLContextRef _ => false

/-- The Context: a native handle, the info cache snapshot, and the color
surface. -/
structure Context where
  native_context : NativeContext
  gl_info : GLInfo
  color_surface : ColorSurface
deriving DecidableEq, Repr

/-- The Device wrapper holding the display and adapter connection. Handles are
modelled as Nat, 0 being a null handle. -/
structure Device where
  egl_device : Nat
  egl_display : Nat
  d3d11_device : Nat
deriving DecidableEq, Repr

/-- Observable native-backend actions, recorded in call order: acquiring the
process-wide creation mutex, the EGL configuration-selection call (with the
requested alpha, depth and stencil sizes), eglCreateContext, eglMakeCurrent,
the global GL function-pointer load, releasing a surface through the surface
collaborator, and eglDestroyContext on a native handle. -/
inductive Effect
  | LockMutex
  | ChooseConfig (alpha depth stencil : Nat)
  | CreateContextNative
  | MakeCurrent
  | LoadGLFunctions
  | DestroySurface (s : Surface)
  | DestroyContextNative (handle : EGLContext)
deriving DecidableEq, Repr

/-- Outcome of running a fallible, possibly asserting operation: a value, a
returned error, or abnormal termination from a failed assertion. -/
inductive RunOutcome (α : Type)
  | ok (value : α)
  | err (e : Error)
  | panicked
deriving DecidableEq, Repr

/-- What dropping a value does: nothing, or abnormal termination. -/
inductive DropOutcome
  | normal
  | abort
deriving DecidableEq, Repr

/-- Drop for Context: panics (abnormal termination) exactly when the native
context is not destroyed and the thread is not already panicking. The
ownership variant is not consulted. -/
def Context.drop (c : Context) (panicking : Bool) : DropOutcome :=
  if !c.native_context.is_destroyed && !panicking then DropOutcome.abort
  else DropOutcome.normal

/-- The native EGL backend's responses during create_context, supplied as an
oracle: whether eglChooseConfig reports success and the translated native
error code when it does not, the match count and config handle it yields
(0 is a null config), the handle eglCreateContext yields (0 is
EGL_NO_CONTEXT) and the translated code in that case, and whether the
provisional eglMakeCurrent succeeds, with its translated code on failure. -/
structure EGLBackend where
  choose_config_ok : Bool
  choose_config_code : Nat
  config_count : Nat
  config : Nat
  created_context : EGLContext
  create_code : Nat
  make_current_ok : Bool
  make_current_code : Nat
deriving DecidableEq, Repr

deriving instance DecidableEq for Except

/-- Result of one create_context call: the guarded once-flag after the call,
the returned value, and the trace of native effects. -/
structure CreateOutput where
  flag : Bool
  result : Except Error Context
  effects : List Effect
deriving DecidableEq, Repr

/-- Device::create_context. The GLES flavor is rejected before the mutex is
acquired and before any native call; then, under the process-wide creation
mutex, a config is chosen with the fixed channel-depth policy (failure:
PixelFormatSelectionFailed with the translated code; zero matches or a null
config: NoPixelFormatFound), the native context is created (EGL_NO_CONTEXT:
ContextCreationFailed), provisionally made current against no target
(failure: MakeCurrentFailed, returned with the freshly created native context
still unreleased — no DestroyContextNative effect is emitted on that path),
the GL function pointers are loaded exactly when the guarded once-flag is
still false, and the populated context is returned with color surface None. -/
def Device.create_context (b : EGLBackend) (flag : Bool) (_d : Device)
    (attributes : ContextAttributes) : CreateOutput :=
  if attributes.flavor.api = GLApi.GLES then
    { flag := flag, result := Except.error Error.UnsupportedGLType, effects := [] }
  else
    let alpha_size := if attributes.flags.alpha then 8 else 0
    let depth_size := if attributes.flags.depth then 24 else 0
    let stencil_size := if attributes.flags.stencil then 8 else 0
    let choose := Effect.ChooseConfig alpha_size depth_size stencil_size
    if b.choose_config_ok = false then
      { flag := flag,
        result := Except.error (Error.PixelFormatSelectionFailed b.choose_config_code),
        effects := [Effect.LockMutex, choose] }
    else if b.config_count = 0 ∨ b.config = 0 then
      { flag := flag, result := Except.error Error.NoPixelFormatFound,
        effects := [Effect.LockMutex, choose] }
    else if b.created_context = NO_CONTEXT then
      { flag := flag, result := Except.error (Error.ContextCreationFailed b.create_code),
        effects := [Effect.LockMutex, choose, Effect.CreateContextNative] }
    else if b.make_current_ok = false then
      { flag := flag,
        result := Except.error (Error.MakeCurrentFailed b.make_current_code),
        effects := [Effect.LockMutex, choose, Effect.CreateContextNative,
                    Effect.MakeCurrent] }
    else
      { flag := true,
        result := Except.ok
          { native_context := NativeContext.OwnedEGLContext b.created_context,
            gl_info := (GLInfo.new attributes).populate,
            color_surface := ColorSurface.none },
        effects :=
          if flag then
            [Effect.LockMutex, choose, Effect.CreateContextNative, Effect.MakeCurrent]
          else
            [Effect.LockMutex, choose, Effect.CreateContextNative, Effect.MakeCurrent,
             Effect.LoadGLFunctions] }

/-- The thread-local and backend state from_current_context sees, supplied as
an oracle: the current display and context handles (0 for EGL_NO_DISPLAY and
EGL_NO_CONTEXT), the results of the device, display, version and config
queries, and the channel sizes of the active config. -/
structure AdoptEnv where
  egl_display : Nat
  egl_context : Nat
  query_display_attrib_ok : Bool
  egl_device : Nat
  query_device_attrib_ok : Bool
  d3d11_device : Nat
  query_client_version_ok : Bool
  client_version : Nat
  query_config_id_ok : Bool
  choose_config_ok : Bool
  egl_config_count : Nat
  alpha_size : Nat
  depth_size : Nat
  stencil_size : Nat
deriving DecidableEq, Repr

/-- Result of one from_current_context call: the guarded once-flag after the
call, the outcome, and the trace of effects. -/
structure AdoptOutput where
  flag : Bool
  outcome : RunOutcome (Device × Context)
  effects : List Effect
deriving DecidableEq, Repr

/-- Device::from_current_context. Under the creation mutex, the current
display and context are read and debug-asserted non-null — a null current
context is an assertion failure, not an Error.NoCurrentContext result, which
this module never constructs. Then the EGL device, the D3D11 device, the
client version and the active config are queried, each failure asserting; the
adopted context is wrapped in an UnsafeEGLContextRef with color surface
External; the GL function pointers are loaded exactly when the guarded
once-flag is still false; and the populated context is returned with the
reconstructed Device. -/
def Device.from_current_context (env : AdoptEnv) (flag : Bool) : AdoptOutput :=
  if env.egl_display = 0 then
    { flag := flag, outcome := RunOutcome.panicked, effects := [Effect.LockMutex] }
  else if env.egl_context = 0 then
    { flag := flag, outcome := RunOutcome.panicked, effects := [Effect.LockMutex] }
  else if env.query_display_attrib_ok = false ∨ env.egl_device = 0 then
    { flag := flag, outcome := RunOutcome.panicked, effects := [Effect.LockMutex] }
  else if env.query_device_attrib_ok = false ∨ env.d3d11_device = 0 then
    { flag := flag, outcome := RunOutcome.panicked, effects := [Effect.LockMutex] }
  else if env.query_client_version_ok = false ∨ env.client_version = 0 then
    { flag := flag, outcome := RunOutcome.panicked, effects := [Effect.LockMutex] }
  else if env.query_config_id_ok = false then
    { flag := flag, outcome := RunOutcome.panicked, effects := [Effect.LockMutex] }
  else if env.choose_config_ok = false ∨ env.egl_config_count = 0 then
    { flag := flag, outcome := RunOutcome.panicked, effects := [Effect.LockMutex] }
  else
    let device : Device :=
      { egl_device := env.egl_device, egl_display := env.egl_display,
        d3d11_device := env.d3d11_device }
    let flags : ContextAttributeFlags :=
      { alpha := env.alpha_size != 0, depth := env.depth_size != 0,
        stencil := env.stencil_size != 0 }
    let attributes : ContextAttributes :=
      { flags := flags,
        flavor := { api := GLApi.GL, version := GLVersion.new env.client_version 0 } }
    let context : Context :=
      { native_context := NativeContext.UnsafeEGLContextRef env.egl_context,
        gl_info := (GLInfo.new attributes).populate,
        color_surface := ColorSurface.External }
    if flag then
      { flag := true, outcome := RunOutcome.ok (device, context),
        effects := [Effect.LockMutex] }
    else
      { flag := true, outcome := RunOutcome.ok (device, context),
        effects := [Effect.LockMutex, Effect.LoadGLFunctions] }

/-- NativeContext::destroy. OwnedEGLContext: asserts the handle live, clears
the current binding, issues eglDestroyContext (whose success is asserted —
destroy_ok is the oracle for that native result; failure is a fatal
assertion), and nulls the handle. UnsafeEGLContextRef: asserts the handle
live and only nulls it, issuing no native release. -/
def NativeContext.destroy (destroy_ok : Bool) :
    NativeContext → RunOutcome NativeContext × List Effect
  | NativeContext.OwnedEGLContext h =>
      if h = NO_CONTEXT then (RunOutcome.panicked, [])
      else if destroy_ok then
        (RunOutcome.ok (NativeContext.OwnedEGLContext NO_CONTEXT),
         [Effect.MakeCurrent, Effect.DestroyContextNative h])
      else (RunOutcome.panicked, [Effect.MakeCurrent, Effect.DestroyContextNative h])
  | NativeContext.UnsafeEGLContextRef h =>
      if h = NO_CONTEXT then (RunOutcome.panicked, [])
      else (RunOutcome.ok (NativeContext.UnsafeEGLContextRef NO_CONTEXT), [])

/-- Device::destroy_context. An already-destroyed context returns Ok at once:
no surface release, no native release, no state change. Otherwise the Managed
color surface, if any, is released through the surface collaborator and the
native handle is destroyed. -/
def Device.destroy_context (destroy_ok : Bool) (_d : Device) (c : Context) :
    RunOutcome Context × List Effect :=
  if c.native_context.is_destroyed then (RunOutcome.ok c, [])
  else
    let taken := c.color_surface.take
    let surf_effects : List Effect :=
      match taken.1 with
      | some s => [Effect.DestroySurface s]
      | Option.none => []
    match c.native_context.destroy destroy_ok with
    | (RunOutcome.ok n, native_effects) =>
        (RunOutcome.ok { c with native_context := n, color_surface := taken.2 },
         surf_effects ++ native_effects)
    | (_, native_effects) => (RunOutcome.panicked, surf_effects ++ native_effects)

/-- Device::make_context_current: binds the context and its color surface (or
no surface) as both read and draw target on the calling thread. mc_error is
the oracle for the native eglMakeCurrent call: none means success, some code
a failure translated to MakeCurrentFailed. -/
def Device.make_context_current (mc_error : Option Nat) (_d : Device) (_c : Context) :
    Except Error Unit :=
  match mc_error with
  | Option.none => Except.ok ()
  | some code => Except.error (Error.MakeCurrentFailed code)

/-- Device::replace_context_color_surface: rejects an External color surface
with ExternalRenderTarget, leaving the context untouched; otherwise swaps in
the new Managed surface, re-activates the context through
make_context_current, and returns the previously Managed surface (None if
there was none). As in the source, the swap happens before the re-activation,
so on a make-current failure the error is returned with the new surface
already installed. -/
def Device.replace_context_color_surface (mc_error : Option Nat) (d : Device)
    (c : Context) (new_color_surface : Surface) :
    Context × Except Error (Option Surface) :=
  match c.color_surface with
  | ColorSurface.External => (c, Except.error Error.ExternalRenderTarget)
  | old =>
      let old_surface : Option Surface :=
        match old with
        | ColorSurface.Managed s => some s
        | _ => Option.none
      let swapped : Context :=
        { c with color_surface := ColorSurface.Managed new_color_surface }
      match Device.make_context_current mc_error d swapped with
      | Except.ok _ => (swapped, Except.ok old_surface)
      | Except.error e => (swapped, Except.error e)

/-- Device::context_surface_framebuffer_object: always Ok 0, the default
framebuffer. -/
def Device.context_surface_framebuffer_object (_d : Device) (_c : Context) :
    Except Error Nat :=
  Except.ok 0

/-- The previously Managed surface of a context, as replacement returns it. -/
def prevManagedSurface (c : Context) : Option Surface :=
  match c.color_surface with
  | ColorSurface.Managed s => some s
  | _ => Option.none

/-- Sequentially replace the color surface with each listed surface (every
re-activation succeeding), collecting the returned values in order. -/
def replaceSeq (d : Device) : Context → List Surface → List (Except Error (Option Surface))
  | _, [] => []
  | c, s :: rest =>
      let step := Device.replace_context_color_surface Option.none d c s
      step.2 :: replaceSeq d step.1 rest

/-- How many returned values of a replacement sequence hand back the given
surface. -/
def countReturned (t : Surface) : List (Except Error (Option Surface)) → Nat
  | [] => 0
  | Except.ok (some u) :: rest => (if u = t then 1 else 0) + countReturned t rest
  | _ :: rest => countReturned t rest

/-- How many global GL function-pointer loads a trace contains. -/
def loadCount : List Effect → Nat
  | [] => 0
  | Effect.LoadGLFunctions :: rest => loadCount rest + 1
  | _ :: rest => loadCount rest

/-- How many native context releases (eglDestroyContext) a trace contains. -/
def releaseCount : List Effect → Nat
  | [] => 0
  | Effect.DestroyContextNative _ :: rest => releaseCount rest + 1
  | _ :: rest => releaseCount rest

/-- One serialized pass through the creation mutex: either create_context with
its backend oracle and attributes, or from_current_context with its
environment. -/
inductive CreationOp
  | create (b : EGLBackend) (attributes : ContextAttributes)
  | adopt (env : AdoptEnv)

/-- A fixed device for driving create_context in sequences; its fields are not
consulted by the modelled call. -/
def someDevice : Device :=
  { egl_device := 1, egl_display := 1, d3d11_device := 1 }

/-- Run one creation op against the guarded once-flag, yielding the new flag
and the op's effect trace. -/
def runCreationOp (flag : Bool) : CreationOp → Bool × List Effect
  | CreationOp.create b attributes =>
      let o := Device.create_context b flag someDevice attributes
      (o.flag, o.effects)
  | CreationOp.adopt env =>
      let o := Device.from_current_context env flag
      (o.flag, o.effects)

/-- Run a serialized sequence of creation ops from a flag state, yielding the
final flag and the total number of global GL loads performed. -/
def runCreationOps (flag : Bool) : List CreationOp → Bool × Nat
  | [] => (flag, 0)
  | op :: rest =>
      let step := runCreationOp flag op
      let next := runCreationOps step.1 rest
      (next.1, loadCount step.2 + next.2)

/-! ## Concrete fixtures for witnesses and evaluations -/

/-- Desktop-GL attribute set with no extra channels, version 3.0. -/
def glAttributes : ContextAttributes :=
  { flags := ContextAttributeFlags.empty,
    flavor := { api := GLApi.GL, version := GLVersion.new 3 0 } }

/-- GLES attribute set, version 2.0. -/
def glesAttributes : ContextAttributes :=
  { flags := ContextAttributeFlags.empty,
    flavor := { api := GLApi.GLES, version := GLVersion.new 2 0 } }

/-- A backend whose provisional make-current fails with translated code 3
after configuration selection (config 5) and context creation (handle 7)
succeed. -/
def makeCurrentFailBackend : EGLBackend :=
  { choose_config_ok := true, choose_config_code := 0, config_count := 1,
    config := 5, created_context := 7, create_code := 0,
    make_current_ok := false, make_current_code := 3 }

/-- A backend on which every native call of create_context succeeds. -/
def allOkBackend : EGLBackend :=
  { choose_config_ok := true, choose_config_code := 0, config_count := 1,
    config := 5, created_context := 7, create_code := 0,
    make_current_ok := true, make_current_code := 0 }

/-- A live Borrowed context: an UnsafeEGLContextRef around handle 7, not
destroyed. -/
def borrowedLiveContext : Context :=
  { native_context := NativeContext.UnsafeEGLContextRef 7,
    gl_info := GLInfo.new glAttributes,
    color_surface := ColorSurface.External }

/-- A live Owned context whose color surface is Managed surface 1. -/
def ownedManagedContext : Context :=
  { native_context := NativeContext.OwnedEGLContext 7,
    gl_info := GLInfo.new glAttributes,
    color_surface := ColorSurface.Managed (Surface.mk 1) }

/-- An adoption environment in which every query succeeds: display 2, current
context 9, client version 3, an alpha channel and no depth or stencil. -/
def fullAdoptEnv : AdoptEnv :=
  { egl_display := 2, egl_context := 9, query_display_attrib_ok := true,
    egl_device := 4, query_device_attrib_ok := true, d3d11_device := 6,
    query_client_version_ok := true, client_version := 3,
    query_config_id_ok := true, choose_config_ok := true, egl_config_count := 1,
    alpha_size := 8, depth_size := 0, stencil_size := 0 }

/-- The device from_current_context reconstructs from fullAdoptEnv. -/
def adoptedDevice : Device :=
  { egl_device := 4, egl_display := 2, d3d11_device := 6 }

/-- The context from_current_context wraps from fullAdoptEnv: a borrowed
handle with an External color surface. -/
def adoptedContext : Context :=
  { native_context := NativeContext.UnsafeEGLContextRef 9,
    gl_info :=
      { attributes :=
          { flags := { alpha := true, depth := false, stencil := false },
            flavor := { api := GLApi.GL, version := GLVersion.new 3 0 } },
        populated := true },
    color_surface := ColorSurface.External }

/-- The state of ownedManagedContext after a successful destroy: handle
nulled, color surface released. -/
def destroyedContext : Context :=
  { native_context := NativeContext.OwnedEGLContext 0,
    gl_info := GLInfo.new glAttributes,
    color_surface := ColorSurface.none }

/-- The adoption environment of a thread with no current context: the current
display is present but GetCurrentContext yields EGL_NO_CONTEXT. -/
def noCurrentContextEnv : AdoptEnv :=
  { egl_display := 2, egl_context := 0, query_display_attrib_ok := true,
    egl_device := 4, query_device_attrib_ok := true, d3d11_device := 6,
    query_client_version_ok := true, client_version := 3,
    query_config_id_ok := true, choose_config_ok := true, egl_config_count := 1,
    alpha_size := 0, depth_size := 0, stencil_size := 0 }

/-! ## Helper lemmas -/

/-- Replacement on a non-External context: the new surface is installed as
Managed, the previously Managed surface is returned, and the state-and-result
pair is exactly the swap. -/
theorem replace_swap_eq (d : Device) (c : Context) (s : Surface)
    (h : c.color_surface ≠ ColorSurface.External) :
    Device.replace_context_color_surface Option.none d c s
      = ({ c with color_surface := ColorSurface.Managed s },
         Except.ok (prevManagedSurface c)) := by
  cases hc : c.color_surface with
  | none =>
      simp [Device.replace_context_color_surface, Device.make_context_current,
        prevManagedSurface, hc]
  | Managed t =>
      simp [Device.replace_context_color_surface, Device.make_context_current,
        prevManagedSurface, hc]
  | External => exact absurd hc h

/-- A surface that is neither the previously Managed one nor among the
replacement arguments is never handed back by the sequence. -/
theorem countReturned_replaceSeq_zero (d : Device) :
    ∀ (ss : List Surface) (c : Context) (t : Surface),
      c.color_surface ≠ ColorSurface.External →
      prevManagedSurface c ≠ some t →
      t ∉ ss →
      countReturned t (replaceSeq d c ss) = 0 := by
  intro ss
  induction ss with
  | nil => intro c t _ _ _; rfl
  | cons s rest ih =>
      intro c t hext hprev hmem
      have hs : s ≠ t := fun he => hmem (he ▸ List.mem_cons_self s rest)
      have hrest : t ∉ rest := fun hm => hmem (List.mem_cons_of_mem s hm)
      simp only [replaceSeq, replace_swap_eq d c s hext]
      have htail :
          countReturned t
            (replaceSeq d { c with color_surface := ColorSurface.Managed s } rest) = 0 := by
        refine ih { c with color_surface := ColorSurface.Managed s } t ?_ ?_ hrest
        · simp
        · simp [prevManagedSurface, hs]
      cases hp : prevManagedSurface c with
      | none => simpa [countReturned] using htail
      | some u =>
          have hu : u ≠ t := fun he => hprev (hp.trans (by rw [he]))
          simpa [countReturned, hu] using htail

/-- A native destroy that returns normally leaves the handle nulled. -/
theorem native_destroy_ok_is_destroyed (destroy_ok : Bool) (n n2 : NativeContext)
    (eff : List Effect) (h : n.destroy destroy_ok = (RunOutcome.ok n2, eff)) :
    n2.is_destroyed = true := by
  cases n with
  | OwnedEGLContext hdl =>
      simp only [NativeContext.destroy] at h
      split at h
      · simp at h
      · split at h
        · obtain ⟨h1, -⟩ := Prod.mk.injEq .. ▸ h
          cases h1
          rfl
        · simp at h
  | UnsafeEGLContextRef hdl =>
      simp only [NativeContext.destroy] at h
      split at h
      · simp at h
      · obtain ⟨h1, -⟩ := Prod.mk.injEq .. ▸ h
        cases h1
        rfl

/-- A destroy_context call that returns normally leaves the context
destroyed. -/
theorem destroy_context_ok_is_destroyed (destroy_ok : Bool) (d : Device)
    (c c2 : Context) (eff : List Effect)
    (h : Device.destroy_context destroy_ok d c = (RunOutcome.ok c2, eff)) :
    c2.native_context.is_destroyed = true := by
  by_cases hd : c.native_context.is_destroyed
  · simp only [Device.destroy_context, hd, if_pos] at h
    obtain ⟨h1, -⟩ := Prod.mk.injEq .. ▸ h
    cases h1
    exact hd
  · simp only [Device.destroy_context, hd] at h
    simp only [Bool.false_eq_true, if_false] at h
    rcases hnd : c.native_context.destroy destroy_ok with ⟨o, neff⟩
    rw [hnd] at h
    cases o with
    | ok n =>
        simp only at h
        obtain ⟨h1, -⟩ := Prod.mk.injEq .. ▸ h
        cases h1
        exact native_destroy_ok_is_destroyed destroy_ok c.native_context n neff hnd
    | err e => simp at h
    | panicked => simp at h

/-- Within one pass through the creation mutex starting with the once-flag
already set, the flag stays set and no global load happens. -/
theorem runCreationOp_true_flag (op : CreationOp) :
    (runCreationOp true op).1 = true ∧ loadCount (runCreationOp true op).2 = 0 := by
  cases op with
  | create b attributes =>
      simp only [runCreationOp, Device.create_context]
      repeat' split
      all_goals simp_all [loadCount]
  | adopt env =>
      simp only [runCreationOp, Device.from_current_context]
      repeat' split
      all_goals simp_all [loadCount]

/-- One pass through the creation mutex performs at most one global load. -/
theorem runCreationOp_load_le_one (flag : Bool) (op : CreationOp) :
    loadCount (runCreationOp flag op).2 ≤ 1 := by
  cases op with
  | create b attributes =>
      simp only [runCreationOp, Device.create_context]
      repeat' split
      all_goals simp_all [loadCount]
  | adopt env =>
      simp only [runCreationOp, Device.from_current_context]
      repeat' split
      all_goals simp_all [loadCount]

/-- A pass that leaves the once-flag unset performed no global load. -/
theorem runCreationOp_false_flag_no_load (op : CreationOp) :
    (runCreationOp false op).1 = false → loadCount (runCreationOp false op).2 = 0 := by
  cases op with
  | create b attributes =>
      simp only [runCreationOp, Device.create_context]
      repeat' split
      all_goals simp_all [loadCount]
  | adopt env =>
      simp only [runCreationOp, Device.from_current_context]
      repeat' split
      all_goals simp_all [loadCount]

/-- With the once-flag already set, any serialized sequence of creations and
adoptions keeps it set and performs no global load at all. -/
theorem runCreationOps_true (ops : List CreationOp) :
    runCreationOps true ops = (true, 0) := by
  induction ops with
  | nil => rfl
  | cons op rest ih =>
      have h := runCreationOp_true_flag op
      simp only [runCreationOps]
      rw [h.1, ih, h.2]
      simp

/-- From an unset once-flag, any serialized sequence performs at most one
global load. -/
theorem runCreationOps_false_le_one (ops : List CreationOp) :
    (runCreationOps false ops).2 ≤ 1 := by
  induction ops with
  | nil => simp [runCreationOps]
  | cons op rest ih =>
      simp only [runCreationOps]
      cases hflag : (runCreationOp false op).1 with
      | true =>
          rw [runCreationOps_true rest]
          simpa using runCreationOp_load_le_one false op
      | false =>
          rw [runCreationOp_false_flag_no_load op hflag]
          simpa using ih

/-! ## Claim theorems -/

/-- C10: for every device and every context — whatever its ownership variant,
color surface state or destruction state — context_surface_framebuffer_object
returns Ok 0, the default framebuffer, and never fails. -/
theorem C10_framebuffer_object_always_zero :
    ∀ (d : Device) (c : Context),
      Device.context_surface_framebuffer_object d c = Except.ok 0 := by
  intro d c
  rfl

/-- C8: for every attribute set whose flavor is the unsupported GLES profile,
create_context returns the unsupported-flavor error (this module's
Error.UnsupportedGLType) with an empty effect trace: the creation mutex is
never acquired and no native call is made, whatever the backend would have
answered. -/
theorem C8_gles_rejected_before_any_native_call :
    ∀ (b : EGLBackend) (flag : Bool) (d : Device) (a : ContextAttributes),
      a.flavor.api = GLApi.GLES →
        Device.create_context b flag d a
          = { flag := flag, result := Except.error Error.UnsupportedGLType,
              effects := [] } := by
  intro b flag d a h
  simp [Device.create_context, h]

/-- C8 witness: a concrete GLES request is rejected before the mutex and
before any native call, on a backend that would otherwise fail make-current. -/
theorem C8_gles_rejected_before_any_native_call_witness :
    Device.create_context makeCurrentFailBackend true someDevice glesAttributes
      = { flag := true, result := Except.error Error.UnsupportedGLType,
          effects := [] } :=
  C8_gles_rejected_before_any_native_call makeCurrentFailBackend true someDevice
    glesAttributes rfl

/-- C9: during create_context on a desktop-GL request, a failing
configuration-selection call yields PixelFormatSelectionFailed wrapping the
translated native code, and a selection that succeeds with zero matching
configurations yields NoPixelFormatFound. -/
theorem C9_config_selection_error_mapping :
    (∀ (b : EGLBackend) (flag : Bool) (d : Device) (a : ContextAttributes),
        a.flavor.api = GLApi.GL → b.choose_config_ok = false →
          (Device.create_context b flag d a).result
            = Except.error (Error.PixelFormatSelectionFailed b.choose_config_code))
      ∧ (∀ (b : EGLBackend) (flag : Bool) (d : Device) (a : ContextAttributes),
          a.flavor.api = GLApi.GL → b.choose_config_ok = true → b.config_count = 0 →
            (Device.create_context b flag d a).result
              = Except.error Error.NoPixelFormatFound) := by
  constructor
  · intro b flag d a hapi hcc
    simp [Device.create_context, hapi, hcc]
  · intro b flag d a hapi hcc hcount
    simp [Device.create_context, hapi, hcc, hcount]

/-- C9 at concrete inputs: a backend whose selection fails with code 11 yields
PixelFormatSelectionFailed 11, and one that succeeds with zero matches yields
NoPixelFormatFound. -/
theorem C9_config_selection_error_mapping_example :
    (Device.create_context
        { choose_config_ok := false, choose_config_code := 11, config_count := 0,
          config := 0, created_context := 0, create_code := 0,
          make_current_ok := true, make_current_code := 0 }
        false someDevice glAttributes).result
      = Except.error (Error.PixelFormatSelectionFailed 11)
    ∧ (Device.create_context
        { choose_config_ok := true, choose_config_code := 0, config_count := 0,
          config := 5, created_context := 0, create_code := 0,
          make_current_ok := true, make_current_code := 0 }
        false someDevice glAttributes).result
      = Except.error Error.NoPixelFormatFound :=
  ⟨C9_config_selection_error_mapping.1 _ false someDevice glAttributes rfl rfl,
   C9_config_selection_error_mapping.2 _ false someDevice glAttributes rfl rfl rfl⟩

/-- C1, evaluated at the failing input: when the provisional activation of the
freshly created native context (handle 7) fails with translated code 3,
create_context returns MakeCurrentFailed 3 and aborts creation — but the
native trace ends at the failed eglMakeCurrent and contains no
eglDestroyContext, so the partially-created native context is never released
before returning, contrary to the claim. -/
theorem C1_make_current_failure_leaks_native_context :
    (Device.create_context makeCurrentFailBackend false someDevice glAttributes).result
        = Except.error (Error.MakeCurrentFailed 3)
      ∧ (Device.create_context makeCurrentFailBackend false someDevice glAttributes).effects
        = [Effect.LockMutex, Effect.ChooseConfig 0 0 0, Effect.CreateContextNative,
           Effect.MakeCurrent]
      ∧ releaseCount
          (Device.create_context makeCurrentFailBackend false someDevice
            glAttributes).effects
        = 0 :=
  ⟨rfl, rfl, rfl⟩

/-- C7, evaluated at the failing input: with no context current on the calling
thread, from_current_context hits the debug assertion on the null current
context and terminates abnormally — it does not return the recoverable
NoCurrentContext error, which this module never constructs — and the guarded
once-flag is left unchanged. -/
theorem C7_no_current_context_panics :
    (Device.from_current_context noCurrentContextEnv false).outcome
        = RunOutcome.panicked
      ∧ (Device.from_current_context noCurrentContextEnv false).flag = false :=
  ⟨rfl, rfl⟩

/-- C2 counterexample: dropping this live Borrowed (UnsafeEGLContextRef)
context outside of unwinding aborts, although the claim says a Borrowed
context never aborts — the Drop guard checks only is_destroyed and
thread::panicking, never the ownership variant. -/
theorem C2_borrowed_drop_aborts :
    Context.drop borrowedLiveContext false = DropOutcome.abort
      ∧ borrowedLiveContext.native_context.isOwned = false
      ∧ borrowedLiveContext.native_context.is_destroyed = false :=
  ⟨rfl, rfl, rfl⟩

/-- C2 amended: dropping a Context aborts abnormally if and only if its native
context has not been destroyed and the thread is not already unwinding,
regardless of the Owned/Borrowed variant; dropping a properly destroyed
context never aborts. -/
theorem C2_drop_aborts_iff_not_destroyed :
    ∀ (c : Context) (panicking : Bool),
      Context.drop c panicking = DropOutcome.abort
        ↔ (c.native_context.is_destroyed = false ∧ panicking = false) := by
  intro c pk
  unfold Context.drop
  cases h : c.native_context.is_destroyed <;> cases pk <;> simp [h]

/-- C3: replacing the color surface of any context whose color surface is
External fails with the ExternalRenderTarget error — a returned error, not a
panic, the modelled operation being total — and leaves the context, in
particular its color surface, unchanged; and every context obtained from
from_current_context carries an External color surface, so every such context
is covered. -/
theorem C3_external_replace_rejected :
    (∀ (mc_error : Option Nat) (d : Device) (c : Context) (s : Surface),
        c.color_surface = ColorSurface.External →
          Device.replace_context_color_surface mc_error d c s
            = (c, Except.error Error.ExternalRenderTarget))
      ∧ (∀ (env : AdoptEnv) (flag : Bool) (d : Device) (c : Context),
          (Device.from_current_context env flag).outcome = RunOutcome.ok (d, c) →
            c.color_surface = ColorSurface.External) := by
  constructor
  · intro mc d c s h
    simp [Device.replace_context_color_surface, h]
  · intro env flag d c h
    simp only [Device.from_current_context] at h
    repeat' split at h
    all_goals simp_all
    all_goals obtain ⟨-, hc⟩ := h
    all_goals subst hc
    all_goals rfl

/-- C3 at concrete inputs: the context adopted from a current EGL context is
External, and replacing its surface returns ExternalRenderTarget with the
context unchanged. -/
theorem C3_external_replace_rejected_example :
    Device.replace_context_color_surface Option.none adoptedDevice adoptedContext
        (Surface.mk 1)
      = (adoptedContext, Except.error Error.ExternalRenderTarget)
      ∧ adoptedContext.color_surface = ColorSurface.External :=
  ⟨C3_external_replace_rejected.1 Option.none adoptedDevice adoptedContext
      (Surface.mk 1) rfl,
   C3_external_replace_rejected.2 fullAdoptEnv false adoptedDevice adoptedContext rfl⟩

/-- C4: with the re-activation succeeding, replacing the color surface of a
context whose color surface is None or Managed installs the new surface as
the Managed color surface, returns the previously Managed surface (None if
there was none), and hands a previously bound surface back exactly once: over
any further replacements that do not re-install it, it is never returned
again. -/
theorem C4_replace_returns_previous_exactly_once :
    (∀ (d : Device) (c : Context) (s : Surface),
        c.color_surface ≠ ColorSurface.External →
          (Device.replace_context_color_surface Option.none d c s).1.color_surface
              = ColorSurface.Managed s
            ∧ (Device.replace_context_color_surface Option.none d c s).2
              = Except.ok (prevManagedSurface c))
      ∧ (∀ (d : Device) (c : Context) (s t : Surface) (rest : List Surface),
          c.color_surface = ColorSurface.Managed t → t ∉ s :: rest →
            countReturned t (replaceSeq d c (s :: rest)) = 1) := by
  constructor
  · intro d c s h
    rw [replace_swap_eq d c s h]
    exact ⟨rfl, rfl⟩
  · intro d c s t rest hc hmem
    have hext : c.color_surface ≠ ColorSurface.External := by
      rw [hc]; simp
    have hs : s ≠ t := fun he => hmem (he ▸ List.mem_cons_self s rest)
    have hrest : t ∉ rest := fun hm => hmem (List.mem_cons_of_mem s hm)
    simp only [replaceSeq, replace_swap_eq d c s hext]
    have htail :
        countReturned t
          (replaceSeq d { c with color_surface := ColorSurface.Managed s } rest) = 0 := by
      refine countReturned_replaceSeq_zero d rest
        { c with color_surface := ColorSurface.Managed s } t ?_ ?_ hrest
      · simp
      · simp [prevManagedSurface, hs]
    have hprev : prevManagedSurface c = some t := by
      simp [prevManagedSurface, hc]
    rw [hprev]
    simp [countReturned, htail]

/-- C4 at concrete inputs: replacing the Managed surface 1 with surface 2
installs surface 2, and over the sequence of replacements by surfaces 2 then
3 the surface 1 is handed back exactly once. -/
theorem C4_replace_returns_previous_exactly_once_example :
    (Device.replace_context_color_surface Option.none someDevice ownedManagedContext
        (Surface.mk 2)).1.color_surface = ColorSurface.Managed (Surface.mk 2)
      ∧ countReturned (Surface.mk 1)
          (replaceSeq someDevice ownedManagedContext [Surface.mk 2, Surface.mk 3]) = 1 :=
  ⟨(C4_replace_returns_previous_exactly_once.1 someDevice ownedManagedContext
      (Surface.mk 2) (by decide)).1,
   C4_replace_returns_previous_exactly_once.2 someDevice ownedManagedContext
      (Surface.mk 2) (Surface.mk 1) [Surface.mk 3] rfl (by decide)⟩

/-- C5: destroy_context on an already-destroyed context returns success at
once, with an empty effect trace — no surface release and no native release —
and leaves the context unchanged; and any destroy_context call that returns
normally leaves the context destroyed, so destroying twice succeeds both
times and the second call is that observable no-op. -/
theorem C5_destroy_idempotent :
    (∀ (destroy_ok : Bool) (d : Device) (c : Context),
        c.native_context.is_destroyed = true →
          Device.destroy_context destroy_ok d c = (RunOutcome.ok c, []))
      ∧ (∀ (first_ok second_ok : Bool) (d d2 : Device) (c c2 : Context)
            (eff : List Effect),
          Device.destroy_context first_ok d c = (RunOutcome.ok c2, eff) →
            Device.destroy_context second_ok d2 c2 = (RunOutcome.ok c2, [])) := by
  have base : ∀ (destroy_ok : Bool) (d : Device) (c : Context),
      c.native_context.is_destroyed = true →
        Device.destroy_context destroy_ok d c = (RunOutcome.ok c, []) := by
    intro dk d c h
    simp [Device.destroy_context, h]
  exact ⟨base, fun first_ok second_ok d d2 c c2 eff h =>
    base second_ok d2 c2 (destroy_context_ok_is_destroyed first_ok d c c2 eff h)⟩

/-- C5 at concrete inputs: destroying a live Owned context releases its
Managed surface and native handle and succeeds, and destroying the resulting
context again succeeds as a no-op with an empty trace. -/
theorem C5_destroy_idempotent_example :
    Device.destroy_context true someDevice ownedManagedContext
        = (RunOutcome.ok destroyedContext,
           [Effect.DestroySurface (Surface.mk 1), Effect.MakeCurrent,
            Effect.DestroyContextNative 7])
      ∧ Device.destroy_context true someDevice destroyedContext
        = (RunOutcome.ok destroyedContext, []) :=
  ⟨rfl,
   C5_destroy_idempotent.2 true true someDevice someDevice ownedManagedContext
     destroyedContext
     [Effect.DestroySurface (Surface.mk 1), Effect.MakeCurrent,
      Effect.DestroyContextNative 7]
     rfl⟩

/-- C6: the global GL function-pointer load happens exactly once per process.
Over any serialized sequence of create_context and from_current_context
passes through the creation mutex: once the guarded once-flag is true it
stays true and no pass ever loads again; from an unset flag at most one load
happens in total; and a create_context or from_current_context that succeeds
with the flag unset performs the load in that same pass and leaves the flag
set. -/
theorem C6_gl_function_load_exactly_once :
    (∀ ops : List CreationOp, runCreationOps true ops = (true, 0))
      ∧ (∀ ops : List CreationOp, (runCreationOps false ops).2 ≤ 1)
      ∧ (∀ (b : EGLBackend) (d : Device) (a : ContextAttributes) (c : Context),
          (Device.create_context b false d a).result = Except.ok c →
            loadCount (Device.create_context b false d a).effects = 1
              ∧ (Device.create_context b false d a).flag = true)
      ∧ (∀ (env : AdoptEnv) (d : Device) (c : Context),
          (Device.from_current_context env false).outcome = RunOutcome.ok (d, c) →
            loadCount (Device.from_current_context env false).effects = 1
              ∧ (Device.from_current_context env false).flag = true) := by
  refine ⟨runCreationOps_true, runCreationOps_false_le_one, ?_, ?_⟩
  · intro b d a c h
    simp only [Device.create_context] at h ⊢
    repeat' split at h
    all_goals simp_all [loadCount]
  · intro env d c h
    simp only [Device.from_current_context] at h ⊢
    repeat' split at h
    all_goals simp_all [loadCount]

/-- C6 at concrete inputs: a successful creation followed by an adoption,
starting from an unset flag, performs at most one load — and exactly one. -/
theorem C6_gl_function_load_exactly_once_example :
    (runCreationOps false
        [CreationOp.create allOkBackend glAttributes,
         CreationOp.adopt fullAdoptEnv]).2 ≤ 1
      ∧ (runCreationOps false
          [CreationOp.create allOkBackend glAttributes,
           CreationOp.adopt fullAdoptEnv]).2 = 1 :=
  ⟨C6_gl_function_load_exactly_once.2.1
      [CreationOp.create allOkBackend glAttributes, CreationOp.adopt fullAdoptEnv],
   rfl⟩

end Surfman
